import Mathlib

/-!
Verification of the lead discovery, scoring and deduplication pipeline
implemented in `lead_app.py`.

The Python source is shallowly embedded: each relevant function of the
source becomes a Lean definition of the same name; external services
(geocoder, Overpass HTTP endpoint, the dateutil parser, the slugify
library) are modelled as oracle parameters, since their behaviour is
outside the repository; machine-level details that the claims do not
touch (floats for coordinates) are kept abstract by type parameters.
-/

namespace LeadApp

/-! ### Python string semantics

Python strings are truthy iff non-empty; `a or b` returns `a` if `a` is
truthy, else `b`.  `dict.get(k)` returns `None` when the key is absent,
which we render as `Option String`. -/

/-- Truthiness of a Python value of type `Optional[str]`: `None` and the
empty string are falsy, every other string is truthy. -/
def pyTruthy : Option String → Bool
  | none => false
  | some s => s ≠ ""

/-- Python `a or b` on `Optional[str]` values: `a` when truthy, else `b`. -/
def pyOr (a b : Option String) : Option String :=
  if pyTruthy a then a else b

/-- Python `a or b` where `b` is a plain string, yielding a plain string
(used for terminal defaults such as `email or social or ""`). -/
def pyOrD (a : Option String) (b : String) : String :=
  if pyTruthy a then a.getD "" else b

/-! ### ZIP code validation gate (lines 31-33 of `lead_app.py`)

The widget value is a Python `str`; we embed it as a `List Char` so that
`len` and per-character `isdigit` are structural.  Python's `str.isdigit`
is true iff the string is non-empty and every character is a digit
(`Char.isDigit` models the ASCII digits, the case relevant to ZIP codes).
The source condition is
`zip_code and not zip_code.isdigit() or len(zip_code) != 5`,
which Python parses as
`(zip_code and not zip_code.isdigit()) or (len(zip_code) != 5)`. -/

/-- Python truthiness of a string: non-empty. -/
def pyStrTruthy (z : List Char) : Bool := !z.isEmpty

/-- Python `str.isdigit`: non-empty and all characters digits. -/
def pyIsdigit (z : List Char) : Bool := !z.isEmpty && z.all Char.isDigit

/-- The guard of line 31 of `lead_app.py`: `true` when the app rejects the
ZIP code with "Please enter a valid 5-digit U.S. ZIP code" and stops. -/
def zipGateRejects (z : List Char) : Bool :=
  (pyStrTruthy z && !pyIsdigit z) || z.length != 5

/-- Outcome of the guarded top of the script: either the run stops at the
ZIP validation error or it proceeds to the rest of the app (geocoding,
querying), abstracted as a continuation. -/
inductive GateResult (α : Type) where
  | invalidZipStop : GateResult α
  | proceed (a : α) : GateResult α
deriving DecidableEq

/-- Lines 31-33 of `lead_app.py`: `st.error` plus `st.stop()` when the
gate rejects, otherwise control reaches the remainder of the script. -/
def zipGateRun {α : Type} (z : List Char) (rest : List Char → α) : GateResult α :=
  if zipGateRejects z then .invalidZipStop else .proceed (rest z)

/-- C10: the gate accepts exactly the strings of exactly 5 digit
characters; every other string, the empty initial widget state included,
is rejected and the script stops before geocoding or querying. -/
theorem C10_zip_gate (z : List Char) :
    (zipGateRejects z = false ↔ z.length = 5 ∧ z.all Char.isDigit = true) ∧
    zipGateRejects ([] : List Char) = true ∧
    (∀ (rest : List Char → Nat), zipGateRejects z = true →
      zipGateRun z rest = .invalidZipStop) := by
  refine ⟨?_, by decide, ?_⟩
  · cases z with
    | nil => simp [zipGateRejects, pyStrTruthy, pyIsdigit]
    | cons c cs =>
      simp only [zipGateRejects, pyStrTruthy, pyIsdigit, List.isEmpty_cons,
        Bool.not_false, Bool.true_and, Bool.or_eq_false_iff,
        Bool.not_eq_true', bne_eq_false_iff_eq, Bool.not_eq_false]
      constructor
      · rintro ⟨h1, h2⟩
        exact ⟨h2, by simpa using h1⟩
      · rintro ⟨h1, h2⟩
        exact ⟨by simpa using h2, h1⟩
  · intro rest h
    simp [zipGateRun, h]

/-- Witness for C10 at the empty string (the initial UI state): the gate
rejects it and the script halts. -/
theorem C10_zip_gate_witness :
    zipGateRun ([] : List Char) List.length = .invalidZipStop :=
  (C10_zip_gate []).2.2 List.length (by decide)

/-! ### Raw Overpass records and the extractor `parse_overpass`
(lines 102-148 of `lead_app.py`)

An Overpass element is a JSON object with a `type` ("node" or "way"), a
numeric `id` and a `tags` string map.  The dateutil parser and
`date.today()` are external: we model dates by their ordinal day number
(an `Int`) and take the parser `parseDate : String → Option Int` (where
`none` stands for the parse raising) and `today : Int` as oracle
parameters; `(date.today() - open_dt).days` becomes `today - openDt`.
`slugify` is likewise an oracle `String → String`. -/

/-- One element of the Overpass response `elements` array. -/
structure RawElement where
  etype : String
  eid : Nat
  tags : List (String × String)
deriving DecidableEq

/-- The parsed JSON document of a successful Overpass response
(`data["elements"]` with default `[]`). -/
structure OverpassData where
  elements : List RawElement
deriving DecidableEq

/-- Python `tags.get(k)`: the value when the key is present, else `None`. -/
def tagGet (tags : List (String × String)) (k : String) : Option String :=
  (tags.find? (fun p => p.1 = k)).map (fun p => p.2)

/-- Python `tags.get(k, "")`: the value when the key is present, else `""`. -/
def tagGetD (tags : List (String × String)) (k : String) : String :=
  (tagGet tags k).getD ""

/-- A canonical lead row as appended by `parse_overpass`. -/
structure Lead where
  osm_id : String
  name : String
  address : String
  phone : String
  emailSocial : String
  openingDate : String
  daysSinceOpening : Int
  score : Int
  demoLink : String
deriving DecidableEq

/-- Python `dateparser.parse(opening).date()` wrapped in the
`try/except`: raises (yields `none`) when `opening` is `None` (a
`TypeError`) or when the string fails to parse. -/
def tryParseDate (parseDate : String → Option Int) : Option String → Option Int
  | none => none
  | some s => parseDate s

/-- The loop body of `parse_overpass` for one element: `none` when one of
the three guards discards the record, otherwise the lead row that the
source appends.  Field accesses follow the source line by line. -/
def extractLead (parseDate : String → Option Int) (today : Int)
    (slugify : String → String) (zip_code : String) (el : RawElement) :
    Option Lead :=
  let tags := el.tags
  let name := tagGet tags "name"
  if pyTruthy name = false then none else
  let phone := pyOr (tagGet tags "phone") (tagGet tags "contact:phone")
  if pyTruthy phone = false then none else
  let email := pyOr (tagGet tags "email") (tagGet tags "contact:email")
  let social := pyOr (tagGet tags "facebook")
      (pyOr (tagGet tags "instagram") (tagGet tags "twitter"))
  let opening := pyOr (tagGet tags "opening_date") (tagGet tags "start_date")
  match tryParseDate parseDate opening with
  | none => none
  | some openDt =>
    let days_since : Int := today - openDt
    let score0 : Int := max 0 (30 - days_since)
    let score1 : Int := if pyTruthy phone then score0 + 10 else score0
    let score : Int :=
      if pyTruthy email || pyTruthy social then score1 + 5 else score1
    let address_parts := [tagGetD tags "addr:housenumber",
      tagGetD tags "addr:street", tagGetD tags "addr:city",
      tagGetD tags "addr:state", tagGetD tags "addr:postcode"]
    let address := String.intercalate ", "
      (address_parts.filter (fun p => p ≠ ""))
    some { osm_id := el.etype ++ "/" ++ toString el.eid
           name := name.getD ""
           address := address
           phone := phone.getD ""
           emailSocial := pyOrD email (pyOrD social "")
           openingDate := opening.getD ""
           daysSinceOpening := days_since
           score := score
           demoLink := "https://yourdomain.com/demo/" ++
             slugify (name.getD "" ++ "-" ++ zip_code) }

/-- `parse_overpass` (lines 102-148): `data.get("elements", []) if data
else []`, then the per-element loop appending at most one lead each, in
source order. -/
def parse_overpass (parseDate : String → Option Int) (today : Int)
    (slugify : String → String) (zip_code : String)
    (data : Option OverpassData) : List Lead :=
  let elements := match data with
    | none => []
    | some d => d.elements
  elements.filterMap (extractLead parseDate today slugify zip_code)

/-- The three presence/parse guards of the extractor, as a predicate on a
raw element: a truthy `name` tag, a truthy phone in the primary or
alternate field, and an opening/start date value that parses.  (Python
truthiness makes a present-but-empty tag count as absent.) -/
def passesFilters (parseDate : String → Option Int) (el : RawElement) : Bool :=
  pyTruthy (tagGet el.tags "name") &&
  pyTruthy (pyOr (tagGet el.tags "phone") (tagGet el.tags "contact:phone")) &&
  (tryParseDate parseDate
    (pyOr (tagGet el.tags "opening_date") (tagGet el.tags "start_date"))).isSome

theorem extractLead_isSome (parseDate : String → Option Int) (today : Int)
    (slugify : String → String) (zip_code : String) (el : RawElement) :
    (extractLead parseDate today slugify zip_code el).isSome =
      passesFilters parseDate el := by
  unfold extractLead passesFilters
  cases hn : pyTruthy (tagGet el.tags "name") with
  | false => simp [hn]
  | true =>
    simp only [hn, Bool.true_and]
    cases hp : pyTruthy
        (pyOr (tagGet el.tags "phone") (tagGet el.tags "contact:phone")) with
    | false => simp [hp]
    | true =>
      simp only [hp, Bool.true_and]
      cases hd : tryParseDate parseDate
          (pyOr (tagGet el.tags "opening_date") (tagGet el.tags "start_date")) with
      | none => simp [hd]
      | some d => simp [hd]

theorem length_filterMap_eq_countP {α β : Type} (f : α → Option β)
    (l : List α) : (l.filterMap f).length = l.countP (fun a => (f a).isSome) := by
  induction l with
  | nil => rfl
  | cons a l ih =>
    cases h : f a with
    | none => simp [List.filterMap_cons, List.countP_cons, h, ih]
    | some b => simp [List.filterMap_cons, List.countP_cons, h, ih]

/-- C3: the extractor keeps a record exactly when the three presence and
parse guards hold, so the number of extracted leads equals (hence is at
most) the number of records satisfying all three conditions. -/
theorem C3_filters_exact (parseDate : String → Option Int) (today : Int)
    (slugify : String → String) (zip_code : String) (data : Option OverpassData) :
    (∀ el : RawElement,
      (extractLead parseDate today slugify zip_code el).isSome =
        passesFilters parseDate el) ∧
    (parse_overpass parseDate today slugify zip_code data).length =
      ((match data with | none => [] | some d => d.elements).countP
        (passesFilters parseDate)) := by
  constructor
  · intro el
    exact extractLead_isSome parseDate today slugify zip_code el
  · unfold parse_overpass
    rw [length_filterMap_eq_countP]
    apply List.countP_congr
    intro el _
    rw [extractLead_isSome]

theorem pyOrD_empty_ne (a : Option String) :
    (pyOrD a "" ≠ "") ↔ pyTruthy a = true := by
  cases a with
  | none => simp [pyOrD, pyTruthy]
  | some s =>
    by_cases hs : s = ""
    · simp [pyOrD, pyTruthy, hs]
    · simp [pyOrD, pyTruthy, hs]

theorem pyOrD_chain_ne (a b : Option String) :
    (pyOrD a (pyOrD b "") ≠ "") ↔ (pyTruthy a || pyTruthy b) = true := by
  cases ha : pyTruthy a with
  | false =>
    have hred : pyOrD a (pyOrD b "") = pyOrD b "" := by simp [pyOrD, ha]
    rw [hred, pyOrD_empty_ne, Bool.false_or]
  | true =>
    cases a with
    | none => simp [pyTruthy] at ha
    | some s =>
      have hs : s ≠ "" := by simpa [pyTruthy] using ha
      simp [pyOrD, pyTruthy, hs]

/-- Structural description of a successfully extracted lead: its stored
score is the freshness term plus the phone bonus plus the contact
richness bonus, read off the stored fields themselves. -/
theorem extractLead_some_spec (parseDate : String → Option Int) (today : Int)
    (slugify : String → String) (zip_code : String) (el : RawElement)
    (L : Lead) (h : extractLead parseDate today slugify zip_code el = some L) :
    L.score = max 0 (30 - L.daysSinceOpening) + 10 +
      (if L.emailSocial ≠ "" then 5 else 0) := by
  unfold extractLead at h
  dsimp only at h
  split at h
  · exact Option.noConfusion h
  next hn =>
    split at h
    · exact Option.noConfusion h
    next hp =>
      split at h
      · exact Option.noConfusion h
      next openDt hd =>
        have hptrue : pyTruthy
            (pyOr (tagGet el.tags "phone") (tagGet el.tags "contact:phone")) = true := by
          revert hp
          cases pyTruthy
              (pyOr (tagGet el.tags "phone") (tagGet el.tags "contact:phone")) <;> simp
        injection h with h
        subst h
        dsimp only [hptrue]
        simp only [hptrue, if_true]
        by_cases hes : (pyTruthy (pyOr (tagGet el.tags "email")
              (tagGet el.tags "contact:email")) ||
            pyTruthy (pyOr (tagGet el.tags "facebook")
              (pyOr (tagGet el.tags "instagram") (tagGet el.tags "twitter")))) = true
        · rw [if_pos hes, if_pos ((pyOrD_chain_ne _ _).mpr hes)]
        · rw [if_neg hes, if_neg (fun hne => hes ((pyOrD_chain_ne _ _).mp hne))]
          omega

/-- C1: every lead that survives the extractor's filters carries
score = max(0, 30 - daysSinceOpening) + 10 + (5 when an email or social
handle is present, else 0); the computation is a pure function of those
inputs. -/
theorem C1_score_formula (parseDate : String → Option Int) (today : Int)
    (slugify : String → String) (zip_code : String) (data : Option OverpassData)
    (L : Lead) (hL : L ∈ parse_overpass parseDate today slugify zip_code data) :
    L.score = max 0 (30 - L.daysSinceOpening) + 10 +
      (if L.emailSocial ≠ "" then 5 else 0) := by
  unfold parse_overpass at hL
  rcases List.mem_filterMap.mp hL with ⟨el, _, hex⟩
  exact extractLead_some_spec parseDate today slugify zip_code el L hex

/-- C2 (amended): every extracted lead has score at least 10, and at most
45 provided its opening date is not in the future (daysSinceOpening
nonnegative); a future opening date can push the score above 45. -/
theorem C2_score_bounds (parseDate : String → Option Int) (today : Int)
    (slugify : String → String) (zip_code : String) (data : Option OverpassData)
    (L : Lead) (hL : L ∈ parse_overpass parseDate today slugify zip_code data) :
    10 ≤ L.score ∧ (0 ≤ L.daysSinceOpening → L.score ≤ 45) := by
  have h := C1_score_formula parseDate today slugify zip_code data L hL
  constructor
  · rw [h]
    have h0 : (0 : Int) ≤ max 0 (30 - L.daysSinceOpening) := le_max_left 0 _
    by_cases he : L.emailSocial ≠ ""
    · rw [if_pos he]; omega
    · rw [if_neg he]; omega
  · intro hd
    rw [h]
    have h30 : max 0 (30 - L.daysSinceOpening) ≤ 30 := by
      apply max_le <;> omega
    by_cases he : L.emailSocial ≠ ""
    · rw [if_pos he]; omega
    · rw [if_neg he]; omega

/-! ### Concrete fixtures

A concrete date-parsing oracle and raw elements used to instantiate the
theorems; `pdFix` maps two fixed date strings to ordinal day numbers and
rejects everything else, the runs below take `today = 106`. -/

def pdFix : String → Option Int := fun s =>
  if s = "2026-10-06" then some 100
  else if s = "2026-10-18" then some 112
  else none

def slugId : String → String := fun s => s

def elPast : RawElement :=
  { etype := "node", eid := 1,
    tags := [("name", "Joes Tacos"), ("phone", "555-1234"),
             ("opening_date", "2026-10-06")] }

def elFuture : RawElement :=
  { etype := "node", eid := 2,
    tags := [("name", "Tomorrowland"), ("phone", "555-9999"),
             ("opening_date", "2026-10-18")] }

def leadPastFix : Lead :=
  { osm_id := "node/1", name := "Joes Tacos", address := "",
    phone := "555-1234", emailSocial := "", openingDate := "2026-10-06",
    daysSinceOpening := 6, score := 34,
    demoLink := "https://yourdomain.com/demo/Joes Tacos-90210" }

/-- Witness for C1 at a concrete record opened 6 days before `today`. -/
theorem C1_score_formula_witness :
    leadPastFix.score = max 0 (30 - leadPastFix.daysSinceOpening) + 10 +
      (if leadPastFix.emailSocial ≠ "" then 5 else 0) :=
  C1_score_formula pdFix 106 slugId "90210"
    (some { elements := [elPast] }) leadPastFix (by decide)

/-- C2 counterexample: a record whose opening date parses to 6 days in
the future yields a lead with score 46, exceeding the claimed upper bound
of 45 (daysSinceOpening = -6, so max(0, 30-(-6)) = 36, plus the phone
bonus 10). -/
theorem C2_counterexample :
    (parse_overpass pdFix 106 slugId "90210"
      (some { elements := [elFuture] })).map Lead.score = [46] ∧
    ¬ ((46 : Int) ≤ 45) :=
  ⟨by decide, by decide⟩

/-- Witness for C2 (amended) at the same past-dated concrete record. -/
theorem C2_score_bounds_witness :
    10 ≤ leadPastFix.score ∧
      (0 ≤ leadPastFix.daysSinceOpening → leadPastFix.score ≤ 45) :=
  C2_score_bounds pdFix 106 slugId "90210"
    (some { elements := [elPast] }) leadPastFix (by decide)

/-! ### The module-level pipeline (lines 150-167 of `lead_app.py`)

`df.sort_values("Score", ascending=False)` calls pandas with the default
`kind="quicksort"`; pandas documents that only `mergesort`/`stable` are
stable sorts, so the library's contract for this call is just: the output
is a permutation of the input with scores in non-increasing order.  We
embed the call as an oracle `sortf` constrained by that contract, stated
as `SortValuesScoreDesc`.  The dedup step reads the `leads` table
(modelled as the association list `store` of `(osm_id, outcome)` rows),
drops every row whose `OSM_ID` is among the store keys, then `head(50)`. -/

/-- Contract of `df.sort_values("Score", ascending=False)` with the
default (non-stable) quicksort: a permutation of the input whose scores
are non-increasing.  Tie order is not specified by pandas for this kind. -/
def SortValuesScoreDesc (input output : List Lead) : Prop :=
  input.Perm output ∧ output.Pairwise (fun a b => b.score ≤ a.score)

/-- The three-way outcome of `fetch_overpass` as observed by the caller:
a parsed JSON document, the explicit no-data error (HTTP 400 path), or
the rate-limit error (retry exhaustion path); both error paths return
`None` to the pipeline, which then stops. -/
inductive FetchOutcome where
  | parsed (d : OverpassData) : FetchOutcome
  | noData : FetchOutcome
  | rateLimited : FetchOutcome
deriving DecidableEq

/-- How a pipeline run ends: stopped at the "No data—try a wider radius
or shorter date window" error, stopped at the "Rate limit exceeded"
error, or reaching `st.data_editor` displaying a (possibly empty) lead
table. -/
inductive RunOutcome where
  | stoppedNoData : RunOutcome
  | stoppedRateLimited : RunOutcome
  | displayed (out : List Lead) : RunOutcome
deriving DecidableEq

/-- Lines 150-167 of `lead_app.py`: stop if the fetch failed (its error
was already shown), parse, stop with the no-data error if no lead was
extracted, otherwise sort by score descending (`sortf`), drop rows whose
`OSM_ID` is a key of the `leads` table, truncate to 50 and display. -/
def runPipeline (store : List (String × String)) (sortf : List Lead → List Lead)
    (fetch : FetchOutcome) (parseDate : String → Option Int) (today : Int)
    (slugify : String → String) (zip_code : String) : RunOutcome :=
  match fetch with
  | .noData => .stoppedNoData
  | .rateLimited => .stoppedRateLimited
  | .parsed d =>
    let leads := parse_overpass parseDate today slugify zip_code (some d)
    if leads = [] then .stoppedNoData
    else
      let sorted := sortf leads
      let existingKeys := store.map Prod.fst
      .displayed ((sorted.filter
        (fun l => decide (l.osm_id ∉ existingKeys))).take 50)

/-- C4: whatever the fetch outcome and whatever function the sort call
computes, a displayed run never contains a lead whose id is a key of the
outcome store at read time, and its length is at most 50. -/
theorem C4_dedup_monotone_and_cap (store : List (String × String))
    (sortf : List Lead → List Lead) (fetch : FetchOutcome)
    (parseDate : String → Option Int) (today : Int)
    (slugify : String → String) (zip_code : String) (out : List Lead)
    (h : runPipeline store sortf fetch parseDate today slugify zip_code =
      .displayed out) :
    (∀ L ∈ out, L.osm_id ∉ store.map Prod.fst) ∧ out.length ≤ 50 := by
  cases fetch with
  | noData => exact RunOutcome.noConfusion h
  | rateLimited => exact RunOutcome.noConfusion h
  | parsed d =>
    unfold runPipeline at h
    dsimp only at h
    split at h
    · exact RunOutcome.noConfusion h
    · injection h with h
      subst h
      constructor
      · intro L hL
        have hf := List.mem_of_mem_take hL
        have := (List.mem_filter.mp hf).2
        exact of_decide_eq_true this
      · exact List.length_take_le 50 _

def storeFix : List (String × String) := [("node/1", "Uncalled")]

/-- Witness for C4: a concrete run whose only extracted lead is already
in the store displays the empty table, trivially satisfying both parts. -/
theorem C4_dedup_monotone_and_cap_witness :
    (∀ L ∈ ([] : List Lead), L.osm_id ∉ storeFix.map Prod.fst) ∧
      ([] : List Lead).length ≤ 50 :=
  C4_dedup_monotone_and_cap storeFix (fun l => l)
    (.parsed { elements := [elPast] }) pdFix 106 slugId "90210" [] (by rfl)

/-- C5 (amended): under the sort contract, a displayed run is ordered by
score descending, so a lead with strictly greater score precedes every
lead with smaller score; the relative order of equal scores is not
specified (the default pandas quicksort is not stable). -/
theorem C5_ranking_descending (store : List (String × String))
    (sortf : List Lead → List Lead) (d : OverpassData)
    (parseDate : String → Option Int) (today : Int)
    (slugify : String → String) (zip_code : String) (out : List Lead)
    (hs : SortValuesScoreDesc
      (parse_overpass parseDate today slugify zip_code (some d))
      (sortf (parse_overpass parseDate today slugify zip_code (some d))))
    (h : runPipeline store sortf (.parsed d) parseDate today slugify zip_code =
      .displayed out) :
    ∀ (i j : Fin out.length),
      (out.get j).score < (out.get i).score → (i : Nat) < (j : Nat) := by
  have hpw : out.Pairwise (fun a b => b.score ≤ a.score) := by
    unfold runPipeline at h
    dsimp only at h
    split at h
    · exact RunOutcome.noConfusion h
    · injection h with h
      subst h
      exact List.Pairwise.sublist (List.take_sublist _ _) (hs.2.filter _)
  intro i j hij
  rcases lt_trichotomy (i : Nat) (j : Nat) with hlt | heq | hgt
  · exact hlt
  · exfalso
    have : out.get i = out.get j := by
      congr 1
      exact Fin.ext heq
    rw [this] at hij
    exact lt_irrefl _ hij
  · exfalso
    have hji := List.pairwise_iff_get.mp hpw j i hgt
    omega

def elTieA : RawElement :=
  { etype := "node", eid := 3,
    tags := [("name", "Alpha"), ("phone", "555-0003"),
             ("opening_date", "2026-10-06")] }

def elTieB : RawElement :=
  { etype := "node", eid := 4,
    tags := [("name", "Beta"), ("phone", "555-0004"),
             ("opening_date", "2026-10-06")] }

def leadTieA : Lead :=
  { osm_id := "node/3", name := "Alpha", address := "",
    phone := "555-0003", emailSocial := "", openingDate := "2026-10-06",
    daysSinceOpening := 6, score := 34,
    demoLink := "https://yourdomain.com/demo/Alpha-90210" }

def leadTieB : Lead :=
  { osm_id := "node/4", name := "Beta", address := "",
    phone := "555-0004", emailSocial := "", openingDate := "2026-10-06",
    daysSinceOpening := 6, score := 34,
    demoLink := "https://yourdomain.com/demo/Beta-90210" }

/-- C5 counterexample to stability: a run in which the sort call obeys
its pandas contract yet reverses two distinct equal-score leads relative
to their source-record order, so ties need not retain prior order. -/
theorem C5_counterexample :
    parse_overpass pdFix 106 slugId "90210"
        (some { elements := [elTieA, elTieB] }) = [leadTieA, leadTieB] ∧
    SortValuesScoreDesc [leadTieA, leadTieB] [leadTieB, leadTieA] ∧
    runPipeline [] (fun _ => [leadTieB, leadTieA])
        (.parsed { elements := [elTieA, elTieB] }) pdFix 106 slugId "90210" =
      .displayed [leadTieB, leadTieA] ∧
    leadTieA.score = leadTieB.score ∧ leadTieA ≠ leadTieB := by
  refine ⟨by decide, ⟨List.Perm.swap _ _ _, by decide⟩, by decide, by decide, by decide⟩

def leadFutureFix : Lead :=
  { osm_id := "node/2", name := "Tomorrowland", address := "",
    phone := "555-9999", emailSocial := "", openingDate := "2026-10-18",
    daysSinceOpening := -6, score := 46,
    demoLink := "https://yourdomain.com/demo/Tomorrowland-90210" }

/-- Witness for C5 (amended): in a concrete run displaying two leads with
scores 46 and 34, the higher-scoring lead occupies the earlier index. -/
theorem C5_ranking_descending_witness :
    ((0 : Nat) < (1 : Nat)) :=
  C5_ranking_descending [] (fun _ => [leadFutureFix, leadPastFix])
    { elements := [elPast, elFuture] } pdFix 106 slugId "90210"
    [leadFutureFix, leadPastFix]
    ⟨List.Perm.swap _ _ _, by decide⟩ (by decide)
    ⟨0, by decide⟩ ⟨1, by decide⟩ (by decide)

/-- C6 (amended): when extraction yields at least one lead but every
extracted lead's id is already a key of the outcome store, the run does
NOT stop at the no-data error; it proceeds and displays an empty table.
The no-data error is raised only when extraction itself yields zero
leads (or on the HTTP 400 fetch path). -/
theorem C6_all_deduped_displays_empty (store : List (String × String))
    (sortf : List Lead → List Lead) (d : OverpassData)
    (parseDate : String → Option Int) (today : Int)
    (slugify : String → String) (zip_code : String)
    (hperm : (parse_overpass parseDate today slugify zip_code (some d)).Perm
      (sortf (parse_overpass parseDate today slugify zip_code (some d))))
    (hne : parse_overpass parseDate today slugify zip_code (some d) ≠ [])
    (hall : ∀ L ∈ parse_overpass parseDate today slugify zip_code (some d),
      L.osm_id ∈ store.map Prod.fst) :
    runPipeline store sortf (.parsed d) parseDate today slugify zip_code =
      .displayed [] := by
  unfold runPipeline
  dsimp only
  rw [if_neg hne]
  have hfil : (sortf (parse_overpass parseDate today slugify zip_code (some d))).filter
      (fun l => decide (l.osm_id ∉ store.map Prod.fst)) = [] := by
    rw [List.filter_eq_nil_iff]
    intro L hL
    have hmem : L ∈ parse_overpass parseDate today slugify zip_code (some d) :=
      hperm.mem_iff.mpr hL
    simp only [decide_eq_true_eq]
    exact fun hcon => hcon (hall L hmem)
  rw [hfil]
  rfl

/-- C6 counterexample: a run extracting exactly one lead whose id is
already in the store ends displaying the empty table instead of stopping
at the claimed no-data report. -/
theorem C6_counterexample :
    parse_overpass pdFix 106 slugId "90210"
        (some { elements := [elPast] }) = [leadPastFix] ∧
    leadPastFix.osm_id ∈ storeFix.map Prod.fst ∧
    runPipeline storeFix (fun l => l) (.parsed { elements := [elPast] })
        pdFix 106 slugId "90210" = .displayed [] ∧
    RunOutcome.displayed ([] : List Lead) ≠ .stoppedNoData := by
  refine ⟨by decide, by decide, by rfl, by decide⟩

/-- Witness for C6 (amended) at the same concrete run. -/
theorem C6_all_deduped_displays_empty_witness :
    runPipeline storeFix (fun l => l) (.parsed { elements := [elPast] })
        pdFix 106 slugId "90210" = .displayed [] :=
  C6_all_deduped_displays_empty storeFix (fun l => l) { elements := [elPast] }
    pdFix 106 slugId "90210" (List.Perm.refl _) (by decide) (by decide)

/-! ### `fetch_overpass` (lines 60-100 of `lead_app.py`)

The HTTP attempts are an oracle `attempts : Nat → HttpAttempt`, attempt
`i` being the i-th `requests.post` call.  `HttpAttempt.ok` is a 2xx
response with parseable JSON; a 2xx response whose body fails JSON
decoding raises a requests exception and is covered by `netError`.  In
the source, the `except HTTPError` branch re-checks for 429, but that
test is unreachable: a 429 is intercepted before `raise_for_status`, so
the branch only ever sees 400 (return `None` with the no-data error) or
another error status (sleep and retry).  The embedding returns the
observable outcome together with the number of attempts consumed. -/

/-- Outcome of one `requests.post` call to the Overpass endpoint. -/
inductive HttpAttempt where
  | ok (d : OverpassData) : HttpAttempt
  | status429 : HttpAttempt
  | status400 : HttpAttempt
  | otherHttpError : HttpAttempt
  | netError : HttpAttempt
deriving DecidableEq

/-- The attempt outcomes after which the loop sleeps one second and goes
round again: HTTP 429, an error status other than 400, or any other
requests exception. -/
def retryableAttempt : HttpAttempt → Bool
  | .status429 => true
  | .otherHttpError => true
  | .netError => true
  | _ => false

/-- The `for _ in range(retries)` loop of `fetch_overpass`, with `fuel`
iterations remaining and `used` attempts already made; falling off the
loop reaches the "Rate limit exceeded" error and returns `None`. -/
def fetchLoop (attempts : Nat → HttpAttempt) : Nat → Nat → FetchOutcome × Nat
  | 0, used => (.rateLimited, used)
  | fuel + 1, used =>
    match attempts used with
    | .ok d => (.parsed d, used + 1)
    | .status429 => fetchLoop attempts fuel (used + 1)
    | .status400 => (.noData, used + 1)
    | .otherHttpError => fetchLoop attempts fuel (used + 1)
    | .netError => fetchLoop attempts fuel (used + 1)

/-- `fetch_overpass` seen from the caller: `retries = 3`, loop, and the
outcome plus the number of HTTP attempts actually made. -/
def fetch_overpass (attempts : Nat → HttpAttempt) : FetchOutcome × Nat :=
  fetchLoop attempts 3 0

theorem fetchLoop_retry_step (attempts : Nat → HttpAttempt) (fuel used : Nat)
    (h : retryableAttempt (attempts used) = true) :
    fetchLoop attempts (fuel + 1) used = fetchLoop attempts fuel (used + 1) := by
  cases hc : attempts used with
  | ok d => rw [hc] at h; exact absurd h (by simp [retryableAttempt])
  | status429 => simp [fetchLoop, hc]
  | status400 => rw [hc] at h; exact absurd h (by simp [retryableAttempt])
  | otherHttpError => simp [fetchLoop, hc]
  | netError => simp [fetchLoop, hc]

theorem fetchLoop_skip (attempts : Nat → HttpAttempt) :
    ∀ (i fuel used : Nat), i ≤ fuel →
      (∀ j, j < i → retryableAttempt (attempts (used + j)) = true) →
      fetchLoop attempts fuel used = fetchLoop attempts (fuel - i) (used + i) := by
  intro i
  induction i with
  | zero => intro fuel used _ _; rfl
  | succ i ih =>
    intro fuel used hle hr
    obtain ⟨f, rfl⟩ : ∃ f, fuel = f + 1 := ⟨fuel - 1, by omega⟩
    have h0 : retryableAttempt (attempts used) = true := by
      have := hr 0 (Nat.succ_pos i)
      simpa using this
    rw [fetchLoop_retry_step attempts f used h0]
    have hrest : ∀ j, j < i → retryableAttempt (attempts (used + 1 + j)) = true := by
      intro j hj
      have := hr (j + 1) (by omega)
      have harith : used + (j + 1) = used + 1 + j := by omega
      rwa [harith] at this
    rw [ih f (used + 1) (by omega) hrest]
    congr 1
    · omega
    · omega

theorem fetchLoop_used_le (attempts : Nat → HttpAttempt) :
    ∀ (fuel used : Nat), (fetchLoop attempts fuel used).2 ≤ used + fuel := by
  intro fuel
  induction fuel with
  | zero => intro used; simp [fetchLoop]
  | succ f ih =>
    intro used
    unfold fetchLoop
    cases attempts used with
    | ok d => simp
    | status429 => have := ih (used + 1); dsimp only; omega
    | status400 => simp
    | otherHttpError => have := ih (used + 1); dsimp only; omega
    | netError => have := ih (used + 1); dsimp only; omega

/-- C7: the fetch makes at most 3 HTTP attempts; an HTTP 400 reached
after only retryable outcomes ends the call at once with the no-data
outcome and no further attempts; three retryable outcomes in a row
exhaust the retries and yield the rate-limited outcome; and every call
ends in exactly one of parsed, no-data, rate-limited. -/
theorem C7_fetch_retry_contract (attempts : Nat → HttpAttempt) :
    (fetch_overpass attempts).2 ≤ 3 ∧
    (∀ i, i < 3 → (∀ j, j < i → retryableAttempt (attempts j) = true) →
      attempts i = .status400 → fetch_overpass attempts = (.noData, i + 1)) ∧
    ((∀ j, j < 3 → retryableAttempt (attempts j) = true) →
      fetch_overpass attempts = (.rateLimited, 3)) ∧
    ((∃ d, (fetch_overpass attempts).1 = .parsed d) ∨
      (fetch_overpass attempts).1 = .noData ∨
      (fetch_overpass attempts).1 = .rateLimited) := by
  refine ⟨?_, ?_, ?_, ?_⟩
  · have := fetchLoop_used_le attempts 3 0
    simpa [fetch_overpass] using this
  · intro i hi hr h400
    unfold fetch_overpass
    rw [fetchLoop_skip attempts i 3 0 (by omega) (by simpa using hr)]
    obtain ⟨f, hf⟩ : ∃ f, 3 - i = f + 1 := ⟨3 - i - 1, by omega⟩
    rw [hf]
    unfold fetchLoop
    have hz : (0 + i) = i := by omega
    rw [hz, h400]
  · intro hr
    unfold fetch_overpass
    rw [fetchLoop_skip attempts 3 3 0 (by omega) (by simpa using hr)]
    rfl
  · cases hv : (fetch_overpass attempts).1 with
    | parsed d => exact Or.inl ⟨d, rfl⟩
    | noData => exact Or.inr (Or.inl rfl)
    | rateLimited => exact Or.inr (Or.inr rfl)

def attemptsFix : Nat → HttpAttempt := fun i =>
  match i with
  | 0 => .status429
  | _ => .status400

/-- Witness for C7: one 429 followed by a 400 ends the call after
exactly two attempts with the no-data outcome. -/
theorem C7_fetch_retry_contract_witness :
    fetch_overpass attemptsFix = (.noData, 2) :=
  (C7_fetch_retry_contract attemptsFix).2.1 1 (by omega)
    (fun j hj => by
      have : j = 0 := by omega
      subst this
      rfl)
    rfl

/-! ### `geocode_zip` (lines 35-47 of `lead_app.py`)

The geopy calls are an oracle `attempts : Nat → GeoAttempt α`, the
coordinate payload kept abstract in `α` (the source carries floats that
no claim computes with).  The `except` clause names exactly
`GeocoderTimedOut` and `GeocoderUnavailable`; any other exception raised
by the geocoder is NOT caught and propagates out of `geocode_zip`, which
the embedding records as an `Except.error`. -/

/-- Outcome of one `geolocator.geocode` call. -/
inductive GeoAttempt (α : Type) where
  | found (c : α) : GeoAttempt α
  | noMatch : GeoAttempt α
  | timedOut : GeoAttempt α
  | unavailable : GeoAttempt α
  | otherFailure : GeoAttempt α
deriving DecidableEq

/-- The geocoder outcomes the `except` clause catches, after which the
loop sleeps one second and retries. -/
def geoRetryable {α : Type} : GeoAttempt α → Bool
  | .timedOut => true
  | .unavailable => true
  | _ => false

/-- The `for i in range(retries)` loop of `geocode_zip`: a location
returns its coordinates, an empty geocoder result returns `None` at
once, a caught exception sleeps and retries, any other exception
escapes; falling off the loop returns `None`. -/
def geocodeLoop {α : Type} (attempts : Nat → GeoAttempt α) :
    Nat → Nat → Except Unit (Option α) × Nat
  | 0, used => (.ok none, used)
  | fuel + 1, used =>
    match attempts used with
    | .found c => (.ok (some c), used + 1)
    | .noMatch => (.ok none, used + 1)
    | .timedOut => geocodeLoop attempts fuel (used + 1)
    | .unavailable => geocodeLoop attempts fuel (used + 1)
    | .otherFailure => (.error (), used + 1)

/-- `geocode_zip` seen from the caller: `retries = 3`, loop, and the
outcome plus the number of geocoder attempts actually made. -/
def geocode_zip {α : Type} (attempts : Nat → GeoAttempt α) :
    Except Unit (Option α) × Nat :=
  geocodeLoop attempts 3 0

theorem geocodeLoop_retry_step {α : Type} (attempts : Nat → GeoAttempt α)
    (fuel used : Nat) (h : geoRetryable (attempts used) = true) :
    geocodeLoop attempts (fuel + 1) used = geocodeLoop attempts fuel (used + 1) := by
  cases hc : attempts used with
  | found c => rw [hc] at h; exact absurd h (by simp [geoRetryable])
  | noMatch => rw [hc] at h; exact absurd h (by simp [geoRetryable])
  | timedOut => simp [geocodeLoop, hc]
  | unavailable => simp [geocodeLoop, hc]
  | otherFailure => rw [hc] at h; exact absurd h (by simp [geoRetryable])

theorem geocodeLoop_skip {α : Type} (attempts : Nat → GeoAttempt α) :
    ∀ (i fuel used : Nat), i ≤ fuel →
      (∀ j, j < i → geoRetryable (attempts (used + j)) = true) →
      geocodeLoop attempts fuel used = geocodeLoop attempts (fuel - i) (used + i) := by
  intro i
  induction i with
  | zero => intro fuel used _ _; rfl
  | succ i ih =>
    intro fuel used hle hr
    obtain ⟨f, rfl⟩ : ∃ f, fuel = f + 1 := ⟨fuel - 1, by omega⟩
    have h0 : geoRetryable (attempts used) = true := by
      have := hr 0 (Nat.succ_pos i)
      simpa using this
    rw [geocodeLoop_retry_step attempts f used h0]
    have hrest : ∀ j, j < i → geoRetryable (attempts (used + 1 + j)) = true := by
      intro j hj
      have := hr (j + 1) (by omega)
      have harith : used + (j + 1) = used + 1 + j := by omega
      rwa [harith] at this
    rw [ih f (used + 1) (by omega) hrest]
    congr 1
    · omega
    · omega

theorem geocodeLoop_used_le {α : Type} (attempts : Nat → GeoAttempt α) :
    ∀ (fuel used : Nat), (geocodeLoop attempts fuel used).2 ≤ used + fuel := by
  intro fuel
  induction fuel with
  | zero => intro used; simp [geocodeLoop]
  | succ f ih =>
    intro used
    unfold geocodeLoop
    cases attempts used with
    | found c => simp
    | noMatch => simp
    | timedOut => have := ih (used + 1); dsimp only; omega
    | unavailable => have := ih (used + 1); dsimp only; omega
    | otherFailure => simp

/-- C8 (amended): the geocoder is attempted at most 3 times, with retry
exactly on a timeout or service-unavailable outcome; a no-match returns
NotFound at once, a found location returns its coordinates, exhausting
the retries returns NotFound — but any other geocoder failure escapes as
an uncaught exception instead of returning NotFound. -/
theorem C8_geocode_retry_contract {α : Type} (attempts : Nat → GeoAttempt α) :
    (geocode_zip attempts).2 ≤ 3 ∧
    ((∀ j, j < 3 → geoRetryable (attempts j) = true) →
      geocode_zip attempts = (.ok none, 3)) ∧
    (∀ i, i < 3 → (∀ j, j < i → geoRetryable (attempts j) = true) →
      (attempts i = .noMatch → geocode_zip attempts = (.ok none, i + 1)) ∧
      (∀ c, attempts i = .found c → geocode_zip attempts = (.ok (some c), i + 1)) ∧
      (attempts i = .otherFailure → geocode_zip attempts = (.error (), i + 1))) := by
  refine ⟨?_, ?_, ?_⟩
  · have := geocodeLoop_used_le attempts 3 0
    simpa [geocode_zip] using this
  · intro hr
    unfold geocode_zip
    rw [geocodeLoop_skip attempts 3 3 0 (by omega) (by simpa using hr)]
    rfl
  · intro i hi hr
    have hskip : geocode_zip attempts = geocodeLoop attempts (3 - i) i := by
      unfold geocode_zip
      rw [geocodeLoop_skip attempts i 3 0 (by omega) (by simpa using hr)]
      congr 1
      omega
    obtain ⟨f, hf⟩ : ∃ f, 3 - i = f + 1 := ⟨3 - i - 1, by omega⟩
    refine ⟨?_, ?_, ?_⟩
    · intro hnm
      rw [hskip, hf]
      unfold geocodeLoop
      rw [hnm]
    · intro c hfc
      rw [hskip, hf]
      unfold geocodeLoop
      rw [hfc]
    · intro hof
      rw [hskip, hf]
      unfold geocodeLoop
      rw [hof]

/-- C8 counterexample: a geocoder failure other than timeout or
service-unavailable on the first attempt escapes `geocode_zip` as an
exception (it is not the NotFound result `None`). -/
theorem C8_counterexample :
    geocode_zip (fun _ => (GeoAttempt.otherFailure : GeoAttempt Unit)) =
      (.error (), 1) ∧
    (Except.error () : Except Unit (Option Unit)) ≠ .ok none :=
  ⟨rfl, fun h => Except.noConfusion h⟩

/-- Witness for C8 (amended): a timeout, then service-unavailable, then
a timeout exhaust the retries and return NotFound after 3 attempts. -/
theorem C8_geocode_retry_contract_witness :
    geocode_zip (fun _ => (GeoAttempt.timedOut : GeoAttempt Unit)) = (.ok none, 3) :=
  (C8_geocode_retry_contract (fun _ => (GeoAttempt.timedOut : GeoAttempt Unit))).2.1
    (fun _ _ => rfl)

/-! ### Reconciliation of operator edits (lines 185-195 of `lead_app.py`)

A snapshot is the displayed table; the reconciliation step compares the
Call Outcome column of the edited table with the session's previous
snapshot index-aligned (both tables carry the same reset 0..n-1 index),
upserts each differing row into the `leads` table and advances the
previous-snapshot reference. -/

/-- One displayed row, as the reconciliation step reads it: the stable
id and the Call Outcome cell. -/
structure SnapshotRow where
  osmId : String
  outcome : String
deriving DecidableEq

/-- Line 187 with lines 188-192: rows of the edited table whose Call
Outcome differs from the previous snapshot's row at the same position,
as the (osm_id, outcome) pairs fed to INSERT OR REPLACE. -/
def changedRows (cur prev : List SnapshotRow) : List (String × String) :=
  (cur.zip prev).filterMap (fun p =>
    if p.1.outcome ≠ p.2.outcome then some (p.1.osmId, p.1.outcome) else none)

/-- Lines 185-195: seed the previous-snapshot reference with the current
table when the session has none, compute and upsert the changed rows,
then advance the reference to the current table. -/
def reconcile (sessPrev : Option (List SnapshotRow)) (cur : List SnapshotRow) :
    List (String × String) × List SnapshotRow :=
  let prev := sessPrev.getD cur
  (changedRows cur prev, cur)

theorem changedRows_self (l : List SnapshotRow) : changedRows l l = [] := by
  induction l with
  | nil => rfl
  | cons a t ih =>
    unfold changedRows at ih ⊢
    simp only [List.zip_cons_cons, List.filterMap_cons]
    rw [if_neg (fun h => h rfl)]
    exact ih

/-- C9: reconciling a snapshot against itself upserts nothing (also when
the session reference is still unseeded), every reconciliation advances
the previous-snapshot reference to the current table, and repeating a
reconciliation with the same pair of snapshots upserts nothing. -/
theorem C9_reconcile_idempotent (sp : Option (List SnapshotRow))
    (S cur : List SnapshotRow) :
    (reconcile (some S) S).1 = [] ∧
    (reconcile none S).1 = [] ∧
    (reconcile sp cur).2 = cur ∧
    (reconcile (some (reconcile sp cur).2) cur).1 = [] :=
  ⟨changedRows_self S, changedRows_self S, rfl, changedRows_self cur⟩

end LeadApp
